import Mathlib

/-!
Verification of the NELDA election-analysis service
(`src/server.py` and `src/cronjob_scheduler.py`) against its
natural-language specification.

The Python code is shallowly embedded: JSON values become an inductive
type, Python dicts become association lists with Python's `dict`
semantics (`get`, membership, `update`), and the background pipeline
becomes a pure function parameterised by the outcomes of its external
calls (PDF read, generation service, document store).
-/

/-- A JSON value, as produced by Python's `json` module / Flask's
`request.get_json()`.  `null` corresponds to Python `None`. -/
inductive JsonValue where
  | str (s : String)
  | num (n : Int)
  | bool (b : Bool)
  | null
  | arr (xs : List JsonValue)
  | obj (fields : List (String × JsonValue))

/-- Python truthiness of a JSON value: `""`, `0`, `False`, `None`,
`[]` and `\x7b\x7d` are falsy, everything else is truthy. -/
def truthy : JsonValue → Bool
  | .str s => !(s == "")
  | .num n => !(n == 0)
  | .bool b => b
  | .null => false
  | .arr xs => !xs.isEmpty
  | .obj fs => !fs.isEmpty

/-- `data.get(k)` on a JSON object modelled as an association list:
`none` when the key is absent. -/
def jget (data : List (String × JsonValue)) (k : String) : Option JsonValue :=
  data.lookup k

/-- Truthiness of `data.get(k)`: Python's `None` (absent key) is falsy. -/
def truthyOpt : Option JsonValue → Bool
  | none => false
  | some v => truthy v

/-- Python's `x is not None` applied to `data.get(k)`: an absent key and a
JSON `null` value both yield Python `None`. -/
def isNotNone : Option JsonValue → Bool
  | none => false
  | some .null => false
  | some _ => true

/-- The validation of `run_my_script` (`src/server.py` lines 370-373):
`all([election_id, country_name, election_types, year, mmdd, pre is not None])`.
The first five entries are checked for truthiness, the last is the boolean
`pre is not None`. -/
def validate_params (data : List (String × JsonValue)) : Bool :=
  truthyOpt (jget data "electionId") &&
  truthyOpt (jget data "countryName") &&
  truthyOpt (jget data "types") &&
  truthyOpt (jget data "year") &&
  truthyOpt (jget data "mmdd") &&
  isNotNone (jget data "pre")

/-- The body of the HTTP response of the trigger endpoint: either the
error object of the 400 response or the acknowledgment object of the
202 response (which echoes `electionId`). -/
inductive ResponseBody where
  | errorBody (msg : String)
  | acceptedBody (electionId : Option JsonValue)

/-- Result of one call to the trigger endpoint: HTTP status, response
body, and the request data handed to the spawned background thread
(`none` when no background work is started). -/
structure EndpointResult where
  status : Nat
  body : ResponseBody
  background : Option (List (String × JsonValue))

/-- The `/runNelda` handler (`src/server.py` lines 345-398) on a JSON
object body: validate the six parameters; on failure return 400 with
`\x7b"error": "Missing required parameters"\x7d` and spawn nothing; on
success spawn the background thread with the request data and return
202.  (The 500 handler for exceptions raised on non-object bodies is
outside this model, which takes a JSON object as input.) -/
def run_my_script (data : List (String × JsonValue)) : EndpointResult :=
  if validate_params data then
    { status := 202
      body := .acceptedBody (jget data "electionId")
      background := some data }
  else
    { status := 400
      body := .errorBody "Missing required parameters"
      background := none }

/-- `k in d` on a Python dict modelled as an association list. -/
def hasKey (d : List (String × String)) (k : String) : Bool :=
  (d.lookup k).isSome

/-- Python `d.update(e)` on dicts: keys already in `d` keep their
position and receive `e`'s value; keys of `e` absent from `d` are
appended in `e`'s order.  (Dicts have unique keys, so `e.lookup` —
first occurrence — is exact.) -/
def dictUpdate (d e : List (String × String)) : List (String × String) :=
  d.map (fun p => match e.lookup p.1 with
    | some v => (p.1, v)
    | none => p) ++
  e.filter (fun p => (d.lookup p.1).isNone)

/-- The expected NELDA fields `NELDA1`..`NELDA58`
(`src/server.py` line 195): `[f"NELDA\x7bi\x7d" for i in range(1, 59)]`. -/
def expected_fields : List String :=
  (List.range 58).map (fun i => "NELDA" ++ toString (i + 1))

/-- The missing-field computation (`src/server.py` lines 196-198):
`[field for field in expected_fields if field not in parsed_response]`. -/
def missing_fields (expected : List String) (parsed : List (String × String)) :
    List String :=
  expected.filter (fun f => !(hasKey parsed f))

/-- The enum domain of every NELDA variable
(`src/server.py` lines 155-158): `["Yes", "No", "Unsure", "N/A"]`. -/
def nelda_variable_schema : List String := ["Yes", "No", "Unsure", "N/A"]

/-- The response schema of the follow-up request (`src/server.py` line 236):
`\x7bfield: nelda_variable_schema for field in missing_fields\x7d`, one enum-typed
property per missing field.  (The fields come from a filter of the
duplicate-free `expected_fields`, so the dict comprehension is a plain map.) -/
def missing_properties (missing : List String) : List (String × List String) :=
  missing.map (fun f => (f, nelda_variable_schema))

/-- Outcome of the follow-up `try` block (`src/server.py` lines 246-262):
`success fp` when both the generation call and `json.loads` succeed with
parsed object `fp`; `failure` when any of them raises (the `except`
branch logs and continues with the partial record). -/
inductive FollowupOutcome where
  | success (fp : List (String × String))
  | failure

/-- The Analysis Provenance Document assembled for MongoDB
(`src/server.py` lines 275-292). -/
structure MongoDocument where
  electionId : Option JsonValue
  countryName : Option JsonValue
  electionTypes : Option JsonValue
  year : Option JsonValue
  mmdd : Option JsonValue
  pre : Option JsonValue
  analysis_timestamp : String
  raw_response : String
  nelda_coding : List (String × String)
  missing_fields_recovered : Int
  total_fields_returned : Nat
  missing_fields : List String

/-- Lines 194-262 of `src/server.py`: the record after the follow-up
block.  When the first response has no missing field, the block is
skipped; otherwise, on follow-up success the parsed follow-up object is
merged in with `parsed_response.update(followup_parsed)` (line 255),
and on follow-up failure the partial record is kept. -/
def merged_response (parsed_response : List (String × String))
    (fo : FollowupOutcome) : List (String × String) :=
  if (missing_fields expected_fields parsed_response).isEmpty then
    parsed_response
  else match fo with
    | .success fp => dictUpdate parsed_response fp
    | .failure => parsed_response

/-- Lines 264-292 of `src/server.py`: recompute the still-missing
fields and assemble the document.
`missing_fields_recovered` is
`len(missing_fields) - len(still_missing) if missing_fields else 0`
(Python integer subtraction, hence `Int`), and `total_fields_returned`
is `len([f for f in expected_fields if f in parsed_response])`. -/
def build_mongodb_document (data : List (String × JsonValue)) (ts raw : String)
    (parsed_response : List (String × String)) (fo : FollowupOutcome) :
    MongoDocument :=
  let missing := missing_fields expected_fields parsed_response
  let parsed2 := merged_response parsed_response fo
  let still_missing := missing_fields expected_fields parsed2
  { electionId := jget data "electionId"
    countryName := jget data "countryName"
    electionTypes := jget data "types"
    year := jget data "year"
    mmdd := jget data "mmdd"
    pre := jget data "pre"
    analysis_timestamp := ts
    raw_response := raw
    nelda_coding := parsed2
    missing_fields_recovered :=
      if missing.isEmpty then 0
      else (missing.length : Int) - (still_missing.length : Int)
    total_fields_returned :=
      (expected_fields.filter (fun f => hasKey parsed2 f)).length
    missing_fields := still_missing }

/-- Outcomes of the external calls made by one background run, fixed up
front so the run is a pure function of them: the PDF read
(lines 59-68), the free-text generation call (lines 118-130), the
structured call together with its `json.loads` (lines 174-192, both
failure points abort the run alike), the follow-up `try` block, the
store call (a function of the document: `store_in_mongodb` can raise on
credentials or connectivity), and the completion timestamp. -/
structure Oracle where
  pdf_ok : Bool
  free_text : Option String
  structured : Option (List (String × String))
  followup : FollowupOutcome
  store : MongoDocument → Except String String
  timestamp : String

/-- Terminal observation of one background run: aborted before the
document was assembled (early `return`), persisted (store returned an
id), or persist-failed (store raised; the document survives only in
memory and `e` is the exception message). -/
inductive RunOutcome where
  | abortedEarly
  | persisted (doc : MongoDocument) (insertedId : String)
  | persistFailed (doc : MongoDocument) (e : String)

/-- The background pipeline `process_nelda_analysis_background`
(`src/server.py` lines 33-308), as a function of the request data and
the oracle of external-call outcomes.  Each failing stage before the
document is assembled does an early `return`; the store call is wrapped
in its own `try`, so its failure still ends the run normally. -/
def process_nelda_analysis_background (data : List (String × JsonValue))
    (oc : Oracle) : RunOutcome :=
  if !oc.pdf_ok then .abortedEarly
  else match oc.free_text with
  | none => .abortedEarly
  | some raw =>
    match oc.structured with
    | none => .abortedEarly
    | some parsed_response =>
      let doc := build_mongodb_document data oc.timestamp raw parsed_response
        oc.followup
      match oc.store doc with
      | .ok rid => .persisted doc rid
      | .error e => .persistFailed doc e

/-- The document carried by a terminal outcome, when the run reached the
persistence stage. -/
def docOf : RunOutcome → Option MongoDocument
  | .abortedEarly => none
  | .persisted doc _ => some doc
  | .persistFailed doc _ => some doc

/-- Whether the run reached the persistence stage (was not aborted
before assembling and storing the document). -/
def reached_persistence : RunOutcome → Bool
  | .abortedEarly => false
  | _ => true

/-- What the persistence stage prints (`src/server.py` lines 296-304):
on success the inserted-id line and the success banner, on failure the
exception message and the failure banner.  This is the whole output of
the failure-reporting channel for the store stage. -/
def persistence_log : RunOutcome → List String
  | .abortedEarly => []
  | .persisted _ rid =>
    ["💾 Storing in MongoDB...",
     "✅ Successfully stored analysis in MongoDB: " ++ rid,
     "=== BACKGROUND NELDA PROCESSING COMPLETED SUCCESSFULLY ==="]
  | .persistFailed _ e =>
    ["💾 Storing in MongoDB...",
     "❌ Failed to store in MongoDB: " ++ e,
     "=== BACKGROUND NELDA PROCESSING FAILED ==="]

/-- Gregorian leap-year rule, as implemented by Python's `datetime`. -/
def is_leap (y : Nat) : Bool :=
  (y % 4 == 0 && !(y % 100 == 0)) || y % 400 == 0

/-- Number of days in month `m` of year `y`. -/
def daysInMonth (y m : Nat) : Nat :=
  if m == 2 then (if is_leap y then 29 else 28)
  else if m == 4 || m == 6 || m == 9 || m == 11 then 30
  else 31

/-- Day number (days since 1970-01-01) of the civil date `y-m-d`, for
`1 ≤ y`: the standard days-from-civil computation, which `datetime`
arithmetic (`date.toordinal` shifted by the epoch) agrees with.
`timedelta(days=n)` on a `datetime` is `+ n` on this day number. -/
def daysFromCivil (y m d : Nat) : Int :=
  let y' := if m ≤ 2 then y - 1 else y
  let era := y' / 400
  let yoe := y' - era * 400
  let mp := (m + 9) % 12
  let doy := (153 * mp + 2) / 5 + d - 1
  let doe := yoe * 365 + yoe / 4 - yoe / 100 + doy
  ((era * 146097 + doe : Nat) : Int) - 719468

/-- Value of an ASCII digit character, `none` otherwise: the `\d`
character class matched by `strptime`'s format directives. -/
def digitVal? (c : Char) : Option Nat :=
  if c = '0' then some 0 else if c = '1' then some 1
  else if c = '2' then some 2 else if c = '3' then some 3
  else if c = '4' then some 4 else if c = '5' then some 5
  else if c = '6' then some 6 else if c = '7' then some 7
  else if c = '8' then some 8 else if c = '9' then some 9
  else none

/-- `int()` applied to a string of digits: `some` of the value when the
string is non-empty and all digits, `none` otherwise (where `strptime`
raises `ValueError` because the directive does not match). -/
def strToNat? (s : String) : Option Nat :=
  match s.data with
  | [] => none
  | cs => cs.foldl (fun acc c =>
      match acc, digitVal? c with
      | some n, some d => some (n * 10 + d)
      | _, _ => none) (some 0)

/-- `parse_date` of `src/cronjob_scheduler.py` (lines 51-60): split
`mmdd` into `mmdd[:2]` and `mmdd[2:]`, build `f"\x7byear\x7d-\x7bmonth\x7d-\x7bday\x7d"` and
run it through `strptime("%Y-%m-%d")`; on `ValueError` return `None`.
`strptime`'s `%Y` requires exactly four digits, `%m`/`%d` at most two,
and the assembled date must be a real calendar date.  The resulting
`datetime` is represented by its day number. -/
def parse_date (year mmdd : String) : Option Int :=
  let month_str := mmdd.take 2
  let day_str := mmdd.drop 2
  match strToNat? year, strToNat? month_str, strToNat? day_str with
  | some y, some m, some d =>
    if year.length = 4 ∧ day_str.length ≤ 2 ∧ 1 ≤ y ∧
        1 ≤ m ∧ m ≤ 12 ∧ 1 ≤ d ∧ d ≤ daysInMonth y m then
      some (daysFromCivil y m d)
    else none
  | _, _, _ => none

/-- The webhook payload sent to the Trigger Endpoint. -/
structure WebhookPayload where
  electionId : String
  countryName : String
  types : String
  year : String
  mmdd : String
  pre : Bool

/-- `create_webhook_payload` of `src/cronjob_scheduler.py`
(lines 73-83): the six payload fields, the first five drawn from the
CSV event row with `event_data.get(k, "")`, `pre` being the
`is_pre_event` flag. -/
def create_webhook_payload (event_data : List (String × String))
    ( is_pre_event : Bool) : WebhookPayload :=
  { electionId := (event_data.lookup "electionId").getD ""
    countryName := (event_data.lookup "countryName").getD ""
    types := (event_data.lookup "types").getD ""
    year := (event_data.lookup "year").getD ""
    mmdd := (event_data.lookup "mmdd").getD ""
    pre := is_pre_event }

/-- The job-collection loop of `process_events`
(`src/cronjob_scheduler.py` lines 158-172): for each event whose
`year`/`mmdd` parse, append one job for two days before the event date
with `is_pre_event = True` and one for two days after with
`is_pre_event = False`; events with an unparsable date are skipped. -/
def jobs_to_create (events : List (List (String × String))) :
    List (List (String × String) × Int × Bool) :=
  events.flatMap (fun event =>
    match parse_date ((event.lookup "year").getD "")
        ((event.lookup "mmdd").getD "") with
    | none => []
    | some base => [(event, base - 2, true), (event, base + 2, false)])

/-- The jobs actually submitted: `create_cronjob` (lines 85-108) is
called once per collected triple and posts a job whose body is
`create_webhook_payload(event, is_pre_event)` scheduled at the triple's
target date. -/
def submitted_jobs (events : List (List (String × String))) :
    List (Int × WebhookPayload) :=
  (jobs_to_create events).map
    (fun j => (j.2.1, create_webhook_payload j.1 j.2.2))

theorem hasKey_iff_mem_keys (d : List (String × String)) (k : String) :
    hasKey d k = true ↔ k ∈ d.map Prod.fst := by
  induction d with
  | nil => simp [hasKey, List.lookup]
  | cons p t ih =>
    obtain ⟨a, b⟩ := p
    by_cases h : k = a
    · subst h
      simp [hasKey, List.lookup]
    · have hb : (k == a) = false := by
        simp [h]
      simp only [hasKey, List.lookup, hb, List.map_cons, List.mem_cons]
      rw [← hasKey]
      rw [ih]
      simp [h]

theorem lookup_map_updF (d e : List (String × String)) (k : String) :
    ((d.map (fun p => match e.lookup p.1 with
      | some v => (p.1, v)
      | none => p)).lookup k) =
      (d.lookup k).map (fun v => (e.lookup k).getD v) := by
  induction d with
  | nil => simp [List.lookup]
  | cons p t ih =>
    obtain ⟨a, b⟩ := p
    by_cases h : k = a
    · subst h
      cases he : e.lookup k <;> simp [List.lookup, he]
    · have hb : (k == a) = false := by
        simp [h]
      cases he : e.lookup a <;> simp [List.lookup, hb, ih, he]

theorem lookup_append (l₁ l₂ : List (String × String)) (k : String) :
    (l₁ ++ l₂).lookup k = ((l₁.lookup k).or (l₂.lookup k)) := by
  induction l₁ with
  | nil => simp [List.lookup]
  | cons p t ih =>
    obtain ⟨a, b⟩ := p
    by_cases h : k = a
    · subst h
      simp [List.lookup]
    · have hb : (k == a) = false := by
        simp [h]
      simp [List.lookup, hb, ih]

theorem lookup_filter_absent (d e : List (String × String)) (k : String)
    (h : hasKey d k = true) :
    (e.filter (fun p => (d.lookup p.1).isNone)).lookup k = none := by
  induction e with
  | nil => simp [List.lookup]
  | cons p t ih =>
    obtain ⟨a, b⟩ := p
    by_cases hka : k = a
    · subst hka
      simp only [hasKey] at h
      cases hd : d.lookup k
      · rw [hd] at h
        simp at h
      · simp [List.filter_cons, hd, ih]
    · have hb : (k == a) = false := by
        simp [hka]
      cases hd : (d.lookup a).isNone
      · simp [List.filter_cons, hd, ih]
      · simp [List.filter_cons, hd, List.lookup, hb, ih]

theorem dictUpdate_lookup (d e : List (String × String)) (k : String) :
    (dictUpdate d e).lookup k =
      match d.lookup k with
      | some v => some ((e.lookup k).getD v)
      | none => (e.filter (fun p => (d.lookup p.1).isNone)).lookup k := by
  rw [dictUpdate, lookup_append, lookup_map_updF]
  cases hd : d.lookup k <;> simp

theorem dictUpdate_hasKey_mono (d e : List (String × String)) (k : String)
    (h : hasKey d k = true) : hasKey (dictUpdate d e) k = true := by
  simp only [hasKey] at h ⊢
  rw [dictUpdate_lookup]
  cases hd : d.lookup k
  · rw [hd] at h
    simp at h
  · cases e.lookup k <;> simp

/-- C3: a Trigger Request in which `electionId`, `countryName`, `types`,
`year` and `mmdd` are present and truthy and `pre` equals the boolean
`false` is accepted: the endpoint returns 202 and hands the request data
to the background task; the check on `pre` is a presence check
(`pre is not None`), not a truthiness check. -/
theorem C3_pre_false_accepted (data : List (String × JsonValue))
    (h1 : truthyOpt (jget data "electionId") = true)
    (h2 : truthyOpt (jget data "countryName") = true)
    (h3 : truthyOpt (jget data "types") = true)
    (h4 : truthyOpt (jget data "year") = true)
    (h5 : truthyOpt (jget data "mmdd") = true)
    (h6 : jget data "pre" = some (.bool false)) :
    (run_my_script data).status = 202 ∧
    (run_my_script data).background = some data := by
  have hv : validate_params data = true := by
    simp [validate_params, h1, h2, h3, h4, h5, h6, isNotNone]
  simp [run_my_script, hv]

/-- Concrete request with `pre = false` and all other fields present. -/
def c3data : List (String × JsonValue) :=
  [("electionId", .str "E42"), ("countryName", .str "Testland"),
   ("types", .str "Legislative/Parliamentary"), ("year", .str "2024"),
   ("mmdd", .str "1105"), ("pre", .bool false)]

theorem C3_witness :
    jget c3data "pre" = some (.bool false) ∧
    (run_my_script c3data).status = 202 ∧
    (run_my_script c3data).background = some c3data :=
  ⟨rfl, C3_pre_false_accepted c3data rfl rfl rfl rfl rfl rfl⟩

/-- C7: a trigger payload in which any of `electionId`, `countryName`,
`types`, `year`, `mmdd` is absent or falsy, or `pre` is absent, is
rejected with status 400 and body
`\x7berror: "Missing required parameters"\x7d`, and no background work is
started (the background thread is never spawned). -/
theorem C7_missing_params_rejected (data : List (String × JsonValue))
    (h : truthyOpt (jget data "electionId") = false ∨
         truthyOpt (jget data "countryName") = false ∨
         truthyOpt (jget data "types") = false ∨
         truthyOpt (jget data "year") = false ∨
         truthyOpt (jget data "mmdd") = false ∨
         jget data "pre" = none) :
    (run_my_script data).status = 400 ∧
    (run_my_script data).body = .errorBody "Missing required parameters" ∧
    (run_my_script data).background = none := by
  have hv : validate_params data = false := by
    rcases h with h | h | h | h | h | h <;>
      simp [validate_params, h, isNotNone]
  simp [run_my_script, hv]

/-- Concrete request with a falsy `mmdd` (empty string) and no `pre`. -/
def c7data : List (String × JsonValue) :=
  [("electionId", .str "E42"), ("countryName", .str "Testland"),
   ("types", .str "Legislative/Parliamentary"), ("year", .str "2024"),
   ("mmdd", .str "")]

theorem C7_witness :
    (run_my_script c7data).status = 400 ∧
    (run_my_script c7data).body = .errorBody "Missing required parameters" ∧
    (run_my_script c7data).background = none :=
  C7_missing_params_rejected c7data
    (Or.inr (Or.inr (Or.inr (Or.inr (Or.inl rfl)))))

/-- Restatement of the completeness checker following the spec's words:
`missing(E, A) = E - keys(A)`, the expected list filtered to the names
not among `A`'s keys, in `E`'s order. -/
def spec_missing (E : List String) (A : List (String × String)) :
    List String :=
  E.filter (fun f => decide (f ∉ A.map Prod.fst))

theorem not_hasKey_eq_decide (A : List (String × String)) (f : String) :
    (!(hasKey A f)) = decide (f ∉ A.map Prod.fst) := by
  by_cases hm : f ∈ A.map Prod.fst
  · have hk : hasKey A f = true := (hasKey_iff_mem_keys A f).mpr hm
    simp [hk, hm]
  · have hk : hasKey A f = false := by
      cases hh : hasKey A f
      · rfl
      · exact absurd ((hasKey_iff_mem_keys A f).mp hh) hm
    simp [hk, hm]

/-- C4: the field-completeness computation is a pure function equal to
`E - keys(A)` in `E`'s order; on an empty record it returns all of `E`
(and, being a total Lean function, cannot throw); and it returns `[]`
whenever `A`'s keys cover `E`. -/
theorem C4_completeness_checker (E : List String)
    (A : List (String × String)) :
    missing_fields E A = spec_missing E A ∧
    missing_fields E [] = E ∧
    ((∀ f ∈ E, f ∈ A.map Prod.fst) → missing_fields E A = []) := by
  refine ⟨?_, ?_, ?_⟩
  · exact List.filter_congr (fun f _ => not_hasKey_eq_decide A f)
  · simp [missing_fields, hasKey, List.lookup]
  · intro hcov
    rw [missing_fields, List.filter_eq_nil_iff]
    intro f hf
    have hk : hasKey A f = true := (hasKey_iff_mem_keys A f).mpr (hcov f hf)
    simp [hk]

/-- A record covering all 58 expected fields, every value `"Yes"`. -/
def fullRecord : List (String × String) :=
  expected_fields.map (fun f => (f, "Yes"))

theorem C4_witness :
    missing_fields expected_fields fullRecord =
      spec_missing expected_fields fullRecord ∧
    missing_fields expected_fields [] = expected_fields ∧
    missing_fields expected_fields fullRecord = [] :=
  let h := C4_completeness_checker expected_fields fullRecord
  ⟨h.1, h.2.1, h.2.2 (by decide)⟩

/-- C5: for a non-empty missing-field list computed from the first
structured record, the follow-up response schema contains exactly the
missing field names and no others, never a field already present in the
record, and constrains each one to the enum
`["Yes", "No", "Unsure", "N/A"]`. -/
theorem C5_followup_schema (parsed : List (String × String))
    (h : missing_fields expected_fields parsed ≠ []) :
    (missing_properties (missing_fields expected_fields parsed)).map
        Prod.fst = missing_fields expected_fields parsed ∧
    ∀ q ∈ missing_properties (missing_fields expected_fields parsed),
      q.2 = nelda_variable_schema ∧ hasKey parsed q.1 = false := by
  constructor
  · simp [missing_properties, List.map_map, Function.comp_def]
  · intro q hq
    simp only [missing_properties, List.mem_map] at hq
    obtain ⟨f, hf, rfl⟩ := hq
    refine ⟨rfl, ?_⟩
    simp only [missing_fields, List.mem_filter] at hf
    simpa using hf.2

/-- A first structured record with a single field present. -/
def parsedOne : List (String × String) := [("NELDA1", "Yes")]

theorem C5_witness :
    (missing_properties (missing_fields expected_fields parsedOne)).map
        Prod.fst = missing_fields expected_fields parsedOne ∧
    ∀ q ∈ missing_properties (missing_fields expected_fields parsedOne),
      q.2 = nelda_variable_schema ∧ hasKey parsedOne q.1 = false :=
  C5_followup_schema parsedOne (by decide)

theorem lookup_some_mem (l : List (String × String)) (k v : String)
    (h : l.lookup k = some v) : (k, v) ∈ l := by
  induction l with
  | nil => simp [List.lookup] at h
  | cons p t ih =>
    obtain ⟨a, b⟩ := p
    by_cases hka : k = a
    · subst hka
      simp [List.lookup] at h
      subst h
      exact List.mem_cons_self _ _
    · have hb : (k == a) = false := by
        simp [hka]
      simp only [List.lookup, hb] at h
      exact List.mem_cons_of_mem _ (ih h)

/-- C1 counterexample: merging a follow-up result that re-supplies an
already-present key DOES overwrite it.  In a run whose first structured
record carries `NELDA3 = "Yes"` and whose follow-up result carries
`NELDA3 = "No"`, the record stored in the assembled document carries
`NELDA3 = "No"`, not `"Yes"`: `parsed_response.update(followup_parsed)`
at `src/server.py` line 255 overwrites existing keys. -/
theorem C1_counterexample :
    ((build_mongodb_document c3data "t" "raw" [("NELDA3", "Yes")]
        (.success [("NELDA3", "No")])).nelda_coding).lookup "NELDA3" ≠
      some "Yes" := by
  decide

/-- C1 amended: after the merge the record's keys are always a superset
of the pre-merge keys; and whenever the follow-up result supplies only
previously-absent keys (which the scoped follow-up schema is designed
to ensure), the value of every key present before the merge is
unchanged.  An arbitrary follow-up result, however, overwrites on key
collision, as the counterexample shows. -/
theorem C1_merge_superset_and_scoped_preserve
    (d e : List (String × String)) (k : String) :
    (hasKey d k = true → hasKey (dictUpdate d e) k = true) ∧
    ((∀ p ∈ e, hasKey d p.1 = false) → hasKey d k = true →
      (dictUpdate d e).lookup k = d.lookup k) := by
  constructor
  · exact dictUpdate_hasKey_mono d e k
  · intro hscope hk
    have hd' := hk
    rw [hasKey] at hd'
    rw [dictUpdate_lookup]
    cases hd : d.lookup k with
    | none =>
      rw [hd] at hd'
      simp at hd'
    | some v =>
      have he : e.lookup k = none := by
        cases hel : e.lookup k with
        | none => rfl
        | some w =>
          have hmem := lookup_some_mem e k w hel
          have hsc := hscope (k, w) hmem
          rw [hasKey, hd] at hsc
          simp at hsc
      simp [he]

theorem C1_witness :
    hasKey (dictUpdate [("NELDA3", "Yes")] [("NELDA5", "No")]) "NELDA3"
        = true ∧
    (dictUpdate [("NELDA3", "Yes")] [("NELDA5", "No")]).lookup "NELDA3" =
      [("NELDA3", "Yes")].lookup "NELDA3" :=
  let h := C1_merge_superset_and_scoped_preserve
    [("NELDA3", "Yes")] [("NELDA5", "No")] "NELDA3"
  ⟨h.1 (by decide), h.2 (by decide) (by decide)⟩

/-- An oracle for a run whose store call raises `"connection refused"`
after a successful first structured call and a failed follow-up. -/
def failStoreOracle (p : List (String × String)) : Oracle :=
  { pdf_ok := true
    free_text := some "raw analysis"
    structured := some p
    followup := .failure
    store := fun _ => .error "connection refused"
    timestamp := "2026-01-01T00:00:00" }

/-- C2 counterexample: two runs whose in-memory documents differ (their
`nelda_coding` differs at `NELDA1`) produce identical persistence-stage
logs when the store call raises.  The failure-reporting channel prints
only the exception message and a fixed banner
(`src/server.py` lines 303-304), so it cannot carry the full computed
document. -/
theorem C2_counterexample :
    persistence_log
        (process_nelda_analysis_background c3data
          (failStoreOracle [("NELDA1", "Yes")])) =
      persistence_log
        (process_nelda_analysis_background c3data
          (failStoreOracle [("NELDA1", "No")])) ∧
    (docOf (process_nelda_analysis_background c3data
          (failStoreOracle [("NELDA1", "Yes")]))).map
        (fun doc => doc.nelda_coding) ≠
      (docOf (process_nelda_analysis_background c3data
          (failStoreOracle [("NELDA1", "No")]))).map
        (fun doc => doc.nelda_coding) := by
  refine ⟨rfl, ?_⟩
  decide

/-- C2 amended: when the store call raises with message `e` in a run
that reached the persistence stage, the run terminates in
`persistFailed` still holding the full in-memory document, but the
failure-reporting channel (the log) carries only the fixed storing
line, the exception message and a failure banner — the document's
fields are not written to it. -/
theorem C2_store_failure_logs_error_only (data : List (String × JsonValue))
    (oc : Oracle) (raw : String) (p : List (String × String)) (e : String)
    (hpdf : oc.pdf_ok = true) (hft : oc.free_text = some raw)
    (hst : oc.structured = some p)
    (hstore : ∀ doc, oc.store doc = .error e) :
    process_nelda_analysis_background data oc =
      .persistFailed
        (build_mongodb_document data oc.timestamp raw p oc.followup) e ∧
    persistence_log (process_nelda_analysis_background data oc) =
      ["💾 Storing in MongoDB...",
       "❌ Failed to store in MongoDB: " ++ e,
       "=== BACKGROUND NELDA PROCESSING FAILED ==="] := by
  have h1 : process_nelda_analysis_background data oc =
      .persistFailed
        (build_mongodb_document data oc.timestamp raw p oc.followup) e := by
    simp [process_nelda_analysis_background, hpdf, hft, hst, hstore]
  refine ⟨h1, ?_⟩
  rw [h1]
  rfl

theorem C2_witness :
    process_nelda_analysis_background c3data
        (failStoreOracle [("NELDA1", "Yes")]) =
      .persistFailed
        (build_mongodb_document c3data
          (failStoreOracle [("NELDA1", "Yes")]).timestamp "raw analysis"
          [("NELDA1", "Yes")] (failStoreOracle [("NELDA1", "Yes")]).followup)
        "connection refused" ∧
    persistence_log (process_nelda_analysis_background c3data
        (failStoreOracle [("NELDA1", "Yes")])) =
      ["💾 Storing in MongoDB...",
       "❌ Failed to store in MongoDB: " ++ "connection refused",
       "=== BACKGROUND NELDA PROCESSING FAILED ==="] :=
  C2_store_failure_logs_error_only c3data (failStoreOracle [("NELDA1", "Yes")])
    "raw analysis" [("NELDA1", "Yes")] "connection refused"
    rfl rfl rfl (fun _ => rfl)

theorem process_reaches (data : List (String × JsonValue)) (oc : Oracle)
    (raw : String) (p : List (String × String))
    (hpdf : oc.pdf_ok = true) (hft : oc.free_text = some raw)
    (hst : oc.structured = some p) :
    reached_persistence (process_nelda_analysis_background data oc) = true ∧
    docOf (process_nelda_analysis_background data oc) =
      some (build_mongodb_document data oc.timestamp raw p oc.followup) := by
  rw [process_nelda_analysis_background, hpdf, hft, hst]
  simp only [Bool.not_true, Bool.false_eq_true, if_false]
  cases hs : oc.store (build_mongodb_document data oc.timestamp raw p
      oc.followup) <;>
    simp [hs, reached_persistence, docOf]

theorem merged_response_failure (p : List (String × String)) :
    merged_response p .failure = p := by
  simp [merged_response]

/-- C6: a follow-up failure is non-fatal.  When the first structured
call returns a record `p` leaving some of the 58 expected fields
missing and the follow-up call raises, the run still reaches the
persistence stage, the final document's record is exactly `p` (all
first-call fields retained unchanged), and its `missing_fields` lists
exactly the fields still absent from `p`. -/
theorem C6_followup_failure_nonfatal (data : List (String × JsonValue))
    (oc : Oracle) (raw : String) (p : List (String × String))
    (hpdf : oc.pdf_ok = true) (hft : oc.free_text = some raw)
    (hst : oc.structured = some p) (hfo : oc.followup = .failure)
    (hmiss : missing_fields expected_fields p ≠ []) :
    reached_persistence (process_nelda_analysis_background data oc) = true ∧
    docOf (process_nelda_analysis_background data oc) =
      some (build_mongodb_document data oc.timestamp raw p .failure) ∧
    (build_mongodb_document data oc.timestamp raw p .failure).nelda_coding
      = p ∧
    (build_mongodb_document data oc.timestamp raw p .failure).missing_fields
      = missing_fields expected_fields p := by
  obtain ⟨h1, h2⟩ := process_reaches data oc raw p hpdf hft hst
  rw [hfo] at h2
  refine ⟨h1, h2, ?_, ?_⟩
  · simp [build_mongodb_document, merged_response_failure]
  · simp [build_mongodb_document, merged_response_failure]

/-- An oracle for a run in which everything up to the follow-up
succeeds, the follow-up raises, and the store succeeds. -/
def followupFailOracle (p : List (String × String)) : Oracle :=
  { pdf_ok := true
    free_text := some "raw analysis"
    structured := some p
    followup := .failure
    store := fun _ => .ok "0123456789abcdef"
    timestamp := "2026-01-01T00:00:00" }

theorem C6_witness :
    reached_persistence (process_nelda_analysis_background c3data
        (followupFailOracle parsedOne)) = true ∧
    docOf (process_nelda_analysis_background c3data
        (followupFailOracle parsedOne)) =
      some (build_mongodb_document c3data
        (followupFailOracle parsedOne).timestamp "raw analysis" parsedOne
        .failure) ∧
    (build_mongodb_document c3data (followupFailOracle parsedOne).timestamp
        "raw analysis" parsedOne .failure).nelda_coding = parsedOne ∧
    (build_mongodb_document c3data (followupFailOracle parsedOne).timestamp
        "raw analysis" parsedOne .failure).missing_fields =
      missing_fields expected_fields parsedOne :=
  C6_followup_failure_nonfatal c3data (followupFailOracle parsedOne)
    "raw analysis" parsedOne rfl rfl rfl rfl (by decide)

/-- C8: recovery bookkeeping.  In every run that reaches persistence
with first structured record `p`, the assembled document satisfies
`missing_fields_recovered = (number of initially-missing fields) -
(number still missing after the merge attempt)`; and when the first
call already returned all 58 fields, the follow-up block is skipped
(the document does not depend on the follow-up outcome at all),
`missing_fields` is empty and `missing_fields_recovered` is 0. -/
theorem C8_recovery_bookkeeping (data : List (String × JsonValue))
    (oc : Oracle) (raw : String) (p : List (String × String))
    (hpdf : oc.pdf_ok = true) (hft : oc.free_text = some raw)
    (hst : oc.structured = some p) :
    docOf (process_nelda_analysis_background data oc) =
      some (build_mongodb_document data oc.timestamp raw p oc.followup) ∧
    (build_mongodb_document data oc.timestamp raw p
        oc.followup).missing_fields_recovered =
      ((missing_fields expected_fields p).length : Int) -
      ((build_mongodb_document data oc.timestamp raw p
        oc.followup).missing_fields.length : Int) ∧
    (missing_fields expected_fields p = [] →
      (build_mongodb_document data oc.timestamp raw p
          oc.followup).missing_fields = [] ∧
      (build_mongodb_document data oc.timestamp raw p
          oc.followup).missing_fields_recovered = 0 ∧
      ∀ fo, build_mongodb_document data oc.timestamp raw p fo =
        build_mongodb_document data oc.timestamp raw p oc.followup) := by
  refine ⟨(process_reaches data oc raw p hpdf hft hst).2, ?_, ?_⟩
  · by_cases hE : (missing_fields expected_fields p).isEmpty
    · have hnil : missing_fields expected_fields p = [] := by
        simpa [List.isEmpty_iff] using hE
      simp [build_mongodb_document, merged_response, hnil]
    · simp [build_mongodb_document, merged_response, hE]
  · intro hnil
    refine ⟨?_, ?_, ?_⟩
    · simp [build_mongodb_document, merged_response, hnil]
    · simp [build_mongodb_document, merged_response, hnil]
    · intro fo
      simp [build_mongodb_document, merged_response, hnil]

/-- A first structured record covering `NELDA1`..`NELDA55`. -/
def p55 : List (String × String) :=
  (List.range 55).map (fun i => ("NELDA" ++ toString (i + 1), "Yes"))

/-- A follow-up result supplying exactly the remaining three fields. -/
def fu3 : List (String × String) :=
  [("NELDA56", "No"), ("NELDA57", "Unsure"), ("NELDA58", "N/A")]

/-- An oracle for the partial-recovery scenario: the first structured
call returns 55 of 58 fields, the follow-up returns the other 3, the
store succeeds. -/
def recoveryOracle : Oracle :=
  { pdf_ok := true
    free_text := some "raw analysis"
    structured := some p55
    followup := .success fu3
    store := fun _ => .ok "0123456789abcdef"
    timestamp := "2026-01-01T00:00:00" }

theorem C8_witness :
    docOf (process_nelda_analysis_background c3data recoveryOracle) =
      some (build_mongodb_document c3data recoveryOracle.timestamp
        "raw analysis" p55 recoveryOracle.followup) ∧
    (build_mongodb_document c3data recoveryOracle.timestamp "raw analysis"
        p55 recoveryOracle.followup).missing_fields_recovered = 3 ∧
    (build_mongodb_document c3data recoveryOracle.timestamp "raw analysis"
        p55 recoveryOracle.followup).missing_fields = [] ∧
    (build_mongodb_document c3data recoveryOracle.timestamp "raw analysis"
        p55 recoveryOracle.followup).total_fields_returned = 58 :=
  ⟨(C8_recovery_bookkeeping c3data recoveryOracle "raw analysis" p55
      rfl rfl rfl).1,
   by decide, by decide, by decide⟩

theorem filter_partition_length (l : List String) (P : String → Bool) :
    (l.filter P).length + (l.filter (fun f => !(P f))).length = l.length := by
  have h := List.length_eq_length_filter_add (l := l) P
  omega

/-- C10: in every Analysis Provenance Document assembled for
persistence, `total_fields_returned + len(missing_fields) = 58`: the
fields counted as returned and the fields listed as still missing
partition the 58-slot expected set (both counts filter over
`expected_fields`, so keys outside `NELDA1`..`NELDA58` affect
neither). -/
theorem C10_field_partition (data : List (String × JsonValue))
    (oc : Oracle) (raw : String) (p : List (String × String))
    (hpdf : oc.pdf_ok = true) (hft : oc.free_text = some raw)
    (hst : oc.structured = some p) :
    docOf (process_nelda_analysis_background data oc) =
      some (build_mongodb_document data oc.timestamp raw p oc.followup) ∧
    (build_mongodb_document data oc.timestamp raw p
        oc.followup).total_fields_returned +
      (build_mongodb_document data oc.timestamp raw p
        oc.followup).missing_fields.length = 58 := by
  refine ⟨(process_reaches data oc raw p hpdf hft hst).2, ?_⟩
  have h58 : expected_fields.length = 58 := by decide
  have hpart := filter_partition_length expected_fields
    (fun f => hasKey (merged_response p oc.followup) f)
  simp only [build_mongodb_document, missing_fields]
  omega

theorem C10_witness :
    docOf (process_nelda_analysis_background c3data recoveryOracle) =
      some (build_mongodb_document c3data recoveryOracle.timestamp
        "raw analysis" p55 recoveryOracle.followup) ∧
    (build_mongodb_document c3data recoveryOracle.timestamp "raw analysis"
        p55 recoveryOracle.followup).total_fields_returned +
      (build_mongodb_document c3data recoveryOracle.timestamp "raw analysis"
        p55 recoveryOracle.followup).missing_fields.length = 58 :=
  C10_field_partition c3data recoveryOracle "raw analysis" p55 rfl rfl rfl

/-- C9: for every input event whose `year`/`mmdd` parse to a valid base
date, the scheduler submits exactly two timed jobs for that event — one
targeting base date − 2 days with `pre = true` and one targeting base
date + 2 days with `pre = false` — each carrying the webhook payload
`\x7belectionId, countryName, types, year, mmdd, pre\x7d` drawn from the
event; surrounding events contribute their own jobs independently. -/
theorem C9_two_jobs_per_event (es fs : List (List (String × String)))
    (e : List (String × String)) (base : Int)
    (hp : parse_date ((e.lookup "year").getD "")
      ((e.lookup "mmdd").getD "") = some base) :
    submitted_jobs (es ++ e :: fs) =
      submitted_jobs es ++
      [(base - 2, create_webhook_payload e true),
       (base + 2, create_webhook_payload e false)] ++
      submitted_jobs fs ∧
    ∀ b, create_webhook_payload e b =
      { electionId := (e.lookup "electionId").getD ""
        countryName := (e.lookup "countryName").getD ""
        types := (e.lookup "types").getD ""
        year := (e.lookup "year").getD ""
        mmdd := (e.lookup "mmdd").getD ""
        pre := b } := by
  constructor
  · simp [submitted_jobs, jobs_to_create, hp]
  · intro b
    rfl

/-- A CSV event row for an election on 2024-11-05. -/
def e0 : List (String × String) :=
  [("electionId", "E42"), ("countryName", "Testland"),
   ("types", "Legislative/Parliamentary"), ("year", "2024"),
   ("mmdd", "1105")]

theorem C9_witness :
    submitted_jobs ([] ++ e0 :: []) =
      submitted_jobs [] ++
      [(daysFromCivil 2024 11 5 - 2, create_webhook_payload e0 true),
       (daysFromCivil 2024 11 5 + 2, create_webhook_payload e0 false)] ++
      submitted_jobs [] :=
  (C9_two_jobs_per_event [] [] e0 (daysFromCivil 2024 11 5) (by decide)).1
